import Mathlib

/-!
# Verification of `lib/crypto/crypto_compat.c` (tarsnap)

Shallow embedding of the RSA compatibility adapter in
`src/lib/crypto/crypto_compat.c`.  BIGNUMs are modelled as `Nat`
(arbitrary-precision non-negative integers); nullable BIGNUM pointers are
`Option Nat`.  The opaque `RSA` key object is a record of eight nullable
components.  The OpenSSL library calls the adapter makes (`RSA_size`,
`BN_num_bits`, `RSA_bits`, `RSA_set0_*`, `RSA_get0_*`,
`RSA_generate_key_ex`, `BN_free`, `BN_clear_free`) are modelled from their
documented OpenSSL semantics; calls that can be rejected by the library are
given an explicit success/failure oracle (`Bool` flags), and resource
release is made observable by recording, in the result of each operation,
which components were freed and with which variant (plain `BN_free` vs
clearing `BN_clear_free`), mirroring the C code's cleanup paths verbatim.

Both build-time generations of the adapter are embedded: the
struct-field-access generation (`OPENSSL_VERSION_NUMBER < 0x10100000L`,
suffix `_lt110`) and the opaque-accessor generation (suffix `_ge110`).
-/

namespace CryptoCompat

/-- The nine-minus-one named RSA key components handled by the adapter
(the modulus `n`, public exponent `e`, private exponent `d`, primes
`p`, `q`, and CRT parameters `dmp1`, `dmq1`, `iqmp`). -/
inductive Comp where
  | n | e | d | p | q | dmp1 | dmq1 | iqmp
deriving DecidableEq, Repr

/-- Model of the OpenSSL `RSA` key object: eight nullable BIGNUM
components.  In the struct-field generation these are literal struct
fields; in the opaque generation they are reached through accessors, but
the state space is the same. -/
structure RSA where
  n : Option Nat
  e : Option Nat
  d : Option Nat
  p : Option Nat
  q : Option Nat
  dmp1 : Option Nat
  dmq1 : Option Nat
  iqmp : Option Nat
deriving DecidableEq, Repr

/-- Model of `RSA_new()`: a fresh key object with all components NULL. -/
def RSA_new : RSA :=
  ⟨none, none, none, none, none, none, none, none⟩

/-- Read one component field of a key by name. -/
def RSA.comp (key : RSA) : Comp → Option Nat
  | .n => key.n
  | .e => key.e
  | .d => key.d
  | .p => key.p
  | .q => key.q
  | .dmp1 => key.dmp1
  | .dmq1 => key.dmq1
  | .iqmp => key.iqmp

/-- Model of OpenSSL `BN_num_bits(x)`: the number of significant bits of
`x`, i.e. `0` for `x = 0` and `floor(log2 x) + 1` otherwise.  `Nat.size`
has exactly this semantics. -/
def BN_num_bits (x : Nat) : Nat :=
  Nat.size x

/-- Model of OpenSSL `BN_num_bytes(x)`: the serialized size of `x` in
bytes, `(BN_num_bits(x) + 7) / 8`. -/
def BN_num_bytes (x : Nat) : Nat :=
  (BN_num_bits x + 7) / 8

/-- Model of OpenSSL `RSA_size(rsa)`: the size of the modulus in bytes
(`BN_num_bytes(rsa->n)`).  Defined via `getD 0`; every use below carries
the hypothesis that the modulus is present, matching the C asserts. -/
def RSA_size (key : RSA) : Nat :=
  BN_num_bytes (key.n.getD 0)

/-- Model of OpenSSL 1.1.0+ `RSA_bits(rsa)`: the bit-length of the key,
which OpenSSL implements as `BN_num_bits(rsa->n)` on the key's modulus. -/
def RSA_bits (key : RSA) : Nat :=
  BN_num_bits (key.n.getD 0)

/-- `crypto_compat_RSA_valid_size`, struct-field generation
(`OPENSSL_VERSION_NUMBER < 0x10100000L`): requires `rsa->n != NULL` and
returns `RSA_size(rsa) == 256 && BN_num_bits(rsa->n) == 2048`. -/
def crypto_compat_RSA_valid_size_lt110 (rsa : RSA) : Bool :=
  (RSA_size rsa == 256) && (BN_num_bits (rsa.n.getD 0) == 2048)

/-- `crypto_compat_RSA_valid_size`, opaque-accessor generation:
returns `RSA_size(rsa) == 256 && RSA_bits(rsa) == 2048`. -/
def crypto_compat_RSA_valid_size_ge110 (rsa : RSA) : Bool :=
  (RSA_size rsa == 256) && (RSA_bits rsa == 2048)

/-- `crypto_compat_RSA_valid_size(rsa)`: the adapter's validate operation
(the two build-time bodies are proved equal below). -/
def crypto_compat_RSA_valid_size (rsa : RSA) : Bool :=
  crypto_compat_RSA_valid_size_ge110 rsa

/-- Result of `crypto_compat_RSA_import`: the C return value, the key
object afterwards, and the observable resource releases performed by the
adapter on its cleanup paths — `freedPlain` records non-NULL arguments
released with `BN_free`, `freedClear` those released with
`BN_clear_free` (both in program order; `BN_free(NULL)` and
`BN_clear_free(NULL)` are no-ops and are not recorded).  `keyFreed`
records whether the adapter called `RSA_free` on the key object itself. -/
structure ImportResult where
  ret : Int
  key : RSA
  freedPlain : List Comp
  freedClear : List Comp
  keyFreed : Bool
deriving DecidableEq, Repr

/-- The components of a free list that are actually non-NULL (model of a
sequence of `BN_free`/`BN_clear_free` calls, which are no-ops on NULL). -/
def freeSeq (xs : List (Comp × Option Nat)) : List Comp :=
  xs.filterMap (fun cv => cv.2.map (fun _ => cv.1))

/-- `crypto_compat_RSA_import`, struct-field generation
(`OPENSSL_VERSION_NUMBER < 0x10100000L`): direct field assignment
(`key->n = n; key->e = e;` and, when `d != NULL`, the six private
fields), then `return (0)`.  No failure branch exists and no cleanup code
is compiled in. -/
def crypto_compat_RSA_import_lt110 (key : RSA) (n e : Nat)
    (d p q dmp1 dmq1 iqmp : Option Nat) : ImportResult :=
  if d = none then
    { ret := 0, key := { key with n := some n, e := some e },
      freedPlain := [], freedClear := [], keyFreed := false }
  else
    { ret := 0,
      key := { key with
               n := some n, e := some e, d := d, p := p, q := q,
               dmp1 := dmp1, dmq1 := dmq1, iqmp := iqmp },
      freedPlain := [], freedClear := [], keyFreed := false }

/-- `crypto_compat_RSA_import`, opaque-accessor generation.  The three
ownership-transfer stages are `RSA_set0_key(key, n, e, d)`,
`RSA_set0_factors(key, p, q)` and `RSA_set0_crt_params(key, dmp1, dmq1,
iqmp)`; each can be rejected by the library, modelled by the oracle flags
`ok1 ok2 ok3` (on success the stage's components are absorbed into the
key; on rejection the key is unchanged at that stage).  The cleanup
labels `err3`/`err2`/`err1` fall through exactly as in the C: `err3`
frees `n`, `e` with `BN_free` and `d` with `BN_clear_free`, `err2`
clear-frees `p`, `q`, `err1` clear-frees `dmp1`, `dmq1`, `iqmp`; then
`return (-1)`. -/
def crypto_compat_RSA_import_ge110 (ok1 ok2 ok3 : Bool) (key : RSA)
    (n e : Nat) (d p q dmp1 dmq1 iqmp : Option Nat) : ImportResult :=
  if d = none then
    -- Public key: single stage RSA_set0_key(key, n, e, NULL).
    if ok1 then
      { ret := 0, key := { key with n := some n, e := some e },
        freedPlain := [], freedClear := [], keyFreed := false }
    else
      -- err3 (falls through err2, err1).
      { ret := -1, key := key,
        freedPlain := freeSeq [(.n, some n), (.e, some e)],
        freedClear := freeSeq [(.d, d), (.p, p), (.q, q),
                               (.dmp1, dmp1), (.dmq1, dmq1), (.iqmp, iqmp)],
        keyFreed := false }
  else
    if ok1 then
      -- RSA_set0_key(key, n, e, d) succeeded: n, e, d absorbed.
      if ok2 then
        -- RSA_set0_factors(key, p, q) succeeded: p, q absorbed.
        if ok3 then
          { ret := 0,
            key := { key with
                     n := some n, e := some e, d := d, p := p, q := q,
                     dmp1 := dmp1, dmq1 := dmq1, iqmp := iqmp },
            freedPlain := [], freedClear := [], keyFreed := false }
        else
          -- err1.
          { ret := -1,
            key := { key with
                     n := some n, e := some e, d := d, p := p, q := q },
            freedPlain := [],
            freedClear := freeSeq [(.dmp1, dmp1), (.dmq1, dmq1),
                                   (.iqmp, iqmp)],
            keyFreed := false }
      else
        -- err2 (falls through err1).
        { ret := -1,
          key := { key with n := some n, e := some e, d := d },
          freedPlain := [],
          freedClear := freeSeq [(.p, p), (.q, q), (.dmp1, dmp1),
                                 (.dmq1, dmq1), (.iqmp, iqmp)],
          keyFreed := false }
    else
      -- err3 (falls through err2, err1).
      { ret := -1, key := key,
        freedPlain := freeSeq [(.n, some n), (.e, some e)],
        freedClear := freeSeq [(.d, d), (.p, p), (.q, q),
                               (.dmp1, dmp1), (.dmq1, dmq1), (.iqmp, iqmp)],
        keyFreed := false }

/-- Result of `crypto_compat_RSA_export`: the C return value and the
values written through the caller's output slots (`none` for a slot that
was not supplied, i.e. a NULL pointer, and hence not written). -/
structure ExportResult where
  ret : Int
  n : Option Nat
  e : Option Nat
  d : Option Nat
  p : Option Nat
  q : Option Nat
  dmp1 : Option Nat
  dmq1 : Option Nat
  iqmp : Option Nat
deriving DecidableEq, Repr

/-- `crypto_compat_RSA_export`, struct-field generation: reads the struct
fields directly into the supplied slots.  `priv` says whether the five
private-component slots were supplied (the C asserts they are all NULL or
all non-NULL, keyed on the `d` slot).  Always returns 0. -/
def crypto_compat_RSA_export_lt110 (key : RSA) (priv : Bool) :
    ExportResult :=
  if priv then
    { ret := 0, n := key.n, e := key.e, d := key.d, p := key.p, q := key.q,
      dmp1 := key.dmp1, dmq1 := key.dmq1, iqmp := key.iqmp }
  else
    { ret := 0, n := key.n, e := key.e, d := none, p := none, q := none,
      dmp1 := none, dmq1 := none, iqmp := none }

/-- `crypto_compat_RSA_export`, opaque-accessor generation: reads via
`RSA_get0_key`, `RSA_get0_factors`, `RSA_get0_crt_params`, which OpenSSL
documents as writing the key's component pointers into the supplied
slots and which cannot fail on a well-formed key.  Always returns 0. -/
def crypto_compat_RSA_export_ge110 (key : RSA) (priv : Bool) :
    ExportResult :=
  if priv then
    { ret := 0, n := key.n, e := key.e, d := key.d, p := key.p, q := key.q,
      dmp1 := key.dmp1, dmq1 := key.dmq1, iqmp := key.iqmp }
  else
    { ret := 0, n := key.n, e := key.e, d := none, p := none, q := none,
      dmp1 := none, dmq1 := none, iqmp := none }

/-- Model of OpenSSL `RSA_generate_key_ex(key, bits, e, NULL)` on
success: the library's documented postcondition is a populated private
key whose modulus has exactly `bits` significant bits and whose public
exponent is the supplied `e`.  The randomness of generation is modelled
by the seed `r`: the modulus is an arbitrary `bits`-bit value determined
by `r` (top bit forced, as in a real RSA modulus), and the private
components are filled with values derived from `r` (their arithmetic
relationship to the modulus is irrelevant to this adapter, which never
inspects them). -/
def RSA_generate_key_ex_model (bits eVal r : Nat) (key : RSA) : RSA :=
  { key with
    n := some (2 ^ (bits - 1) + r % 2 ^ (bits - 1)),
    e := some eVal,
    d := some (r + 1), p := some (r + 2), q := some (r + 3),
    dmp1 := some (r + 4), dmq1 := some (r + 5), iqmp := some (r + 6) }

/-- Result of `crypto_compat_RSA_generate_key`: the returned key handle
(`none` on failure), whether the working exponent BIGNUM was allocated
and whether it was freed, whether a key handle was allocated and whether
it was freed by the adapter, and whether the underlying library's
diagnostic string was reported via `warn0(ERR_error_string(...))`. -/
structure GenerateResult where
  key : Option RSA
  madeE : Bool
  freedE : Bool
  madeKey : Bool
  keyFreed : Bool
  warned : Bool
deriving DecidableEq, Repr

/-- `crypto_compat_RSA_generate_key`, modern path
(`OPENSSL_VERSION_NUMBER >= 0x00908000L`): `BN_new()` the exponent
(oracle `okE`), `BN_set_word(e, 65537)`, `RSA_new()` the key (oracle
`okKey`), `RSA_generate_key_ex(key, 2048, e, NULL)` (oracle `okGen`,
randomness `r`).  Cleanup labels as in the C: `err2` frees the key,
`err1` frees the exponent, `err0` returns NULL; on success the exponent
is freed and the key returned.  Every failure prints the library's
diagnostic with `warn0`. -/
def crypto_compat_RSA_generate_key (okE okKey okGen : Bool) (r : Nat) :
    GenerateResult :=
  if okE then
    if okKey then
      if okGen then
        { key := some (RSA_generate_key_ex_model 2048 65537 r RSA_new),
          madeE := true, freedE := true, madeKey := true, keyFreed := false,
          warned := false }
      else
        -- err2: RSA_free(key); err1: BN_free(e); err0.
        { key := none, madeE := true, freedE := true, madeKey := true,
          keyFreed := true, warned := true }
    else
      -- err1: BN_free(e); err0.
      { key := none, madeE := true, freedE := true, madeKey := false,
        keyFreed := false, warned := true }
  else
    -- err0: nothing was allocated.
    { key := none, madeE := false, freedE := false, madeKey := false,
      keyFreed := false, warned := true }

/-- All eight component names, in the adapter's transfer order. -/
def allComps : List Comp :=
  [.n, .e, .d, .p, .q, .dmp1, .dmq1, .iqmp]

/-- The components released by the adapter during one import call, with
either variant, in program order. -/
def ImportResult.adapterFreed (res : ImportResult) : List Comp :=
  res.freedPlain ++ res.freedClear

/-- Exact-cleanup property of an import result on a fresh key: every
component was either released by the adapter exactly where recorded and
is absent from the handle, or was absorbed into the handle and not
released by the adapter — no leak, no double release. -/
def importCleanupExact (res : ImportResult) : Bool :=
  allComps.all (fun c =>
    if c ∈ res.adapterFreed then res.key.comp c == none
    else (res.key.comp c).isSome)

/- ## Arithmetic helper: bit-length of a top-bit-forced value -/

/-- A value of the form `2 ^ b + r % 2 ^ b` has exactly `b + 1`
significant bits. -/
theorem size_top_bit (b r : Nat) :
    Nat.size (2 ^ b + r % 2 ^ b) = b + 1 := by
  have hpos : 0 < 2 ^ b := pow_pos (by norm_num) b
  have h1 : r % 2 ^ b < 2 ^ b := Nat.mod_lt _ hpos
  have h2 : 2 ^ (b + 1) = 2 ^ b + 2 ^ b := by
    rw [pow_succ]; omega
  refine le_antisymm (Nat.size_le.2 ?_) (Nat.lt_size.2 ?_) <;> omega

/- ## Claims -/

/-- C1: for every key handle with a modulus and exponent present,
`crypto_compat_RSA_valid_size` returns true iff the serialized modulus
size equals 256 bytes and the key's bit-length equals 2048 (and hence
false as soon as either check fails); the function is pure, so it has no
side effects and does not mutate the handle. -/
theorem valid_size_iff (rsa : RSA) (nv ev : Nat) (_hn : rsa.n = some nv)
    (_he : rsa.e = some ev) :
    crypto_compat_RSA_valid_size rsa = true ↔
      (RSA_size rsa = 256 ∧ RSA_bits rsa = 2048) := by
  simp [crypto_compat_RSA_valid_size, crypto_compat_RSA_valid_size_ge110]

/-- A small concrete public key handle (1-bit modulus). -/
def rsaPub1 : RSA :=
  ⟨some 1, some 65537, none, none, none, none, none, none⟩

/-- Witness for C1 at a concrete handle. -/
theorem valid_size_iff_witness :
    crypto_compat_RSA_valid_size rsaPub1 = true ↔
      (RSA_size rsaPub1 = 256 ∧ RSA_bits rsaPub1 = 2048) :=
  valid_size_iff rsaPub1 1 65537 rfl rfl

/-- C8: the two version-selected bit-length paths of validate — direct
`BN_num_bits` on the `n` field (pre-1.1.0) and `RSA_bits` on the handle
(1.1.0+, which OpenSSL evaluates as `BN_num_bits` of the key's modulus)
— give the same result on every key handle, so the two build-time
implementations of validate are equivalent. -/
theorem valid_size_paths_agree (rsa : RSA) :
    crypto_compat_RSA_valid_size_lt110 rsa =
      crypto_compat_RSA_valid_size_ge110 rsa :=
  rfl

/-- C5: export always returns success (0) in both build generations, for
every key handle and either choice of supplied optional slots; there is
no failure result and no library-level error path. -/
theorem export_never_fails (key : RSA) (priv : Bool) :
    (crypto_compat_RSA_export_ge110 key priv).ret = 0 ∧
    (crypto_compat_RSA_export_lt110 key priv).ret = 0 := by
  cases priv <;> exact ⟨rfl, rfl⟩

/-- C9: in the struct-field-access generation, import always returns
success: direct field assignment has no failure branch, so the failure
result and its cleanup path are unreachable — nothing is ever freed. -/
theorem import_lt110_never_fails (key : RSA) (n e : Nat)
    (d p q dmp1 dmq1 iqmp : Option Nat) :
    (crypto_compat_RSA_import_lt110 key n e d p q dmp1 dmq1 iqmp).ret = 0 ∧
    (crypto_compat_RSA_import_lt110 key n e d p q dmp1 dmq1 iqmp).freedPlain
      = [] ∧
    (crypto_compat_RSA_import_lt110 key n e d p q dmp1 dmq1 iqmp).freedClear
      = [] ∧
    (crypto_compat_RSA_import_lt110 key n e d p q dmp1 dmq1 iqmp).keyFreed
      = false := by
  by_cases hd : d = none <;> simp [crypto_compat_RSA_import_lt110, hd]

/-- C2: for any components successfully imported into a key handle
(`n`, `e` present; the five private components all present or all
absent), a subsequent export on the same handle returns, in every
supplied output slot, exactly the value that was imported. -/
theorem import_export_roundtrip (key : RSA) (nv ev : Nat)
    (d p q dmp1 dmq1 iqmp : Option Nat) (ok1 ok2 ok3 : Bool)
    (hgrp : p.isSome = d.isSome ∧ q.isSome = d.isSome ∧
            dmp1.isSome = d.isSome ∧ dmq1.isSome = d.isSome ∧
            iqmp.isSome = d.isSome)
    (hok : (crypto_compat_RSA_import_ge110 ok1 ok2 ok3 key nv ev d p q dmp1
        dmq1 iqmp).ret = 0) :
    crypto_compat_RSA_export_ge110
        (crypto_compat_RSA_import_ge110 ok1 ok2 ok3 key nv ev d p q dmp1
          dmq1 iqmp).key d.isSome =
      { ret := 0, n := some nv, e := some ev, d := d, p := p, q := q,
        dmp1 := dmp1, dmq1 := dmq1, iqmp := iqmp } := by
  obtain ⟨hp, hq, h1, h2, h3⟩ := hgrp
  cases d <;> cases p <;> cases q <;> cases dmp1 <;> cases dmq1 <;>
    cases iqmp <;> cases ok1 <;> cases ok2 <;> cases ok3 <;>
    simp_all [crypto_compat_RSA_import_ge110, crypto_compat_RSA_export_ge110]

/-- Witness for C2: a concrete private-key import followed by export. -/
theorem import_export_roundtrip_witness :
    crypto_compat_RSA_export_ge110
        (crypto_compat_RSA_import_ge110 true true true RSA_new 3 65537
          (some 5) (some 7) (some 11) (some 13) (some 17) (some 19)).key
        (some 5 : Option Nat).isSome =
      { ret := 0, n := some 3, e := some 65537, d := some 5, p := some 7,
        q := some 11, dmp1 := some 13, dmq1 := some 17, iqmp := some 19 } :=
  import_export_roundtrip RSA_new 3 65537 (some 5) (some 7) (some 11)
    (some 13) (some 17) (some 19) true true true
    ⟨rfl, rfl, rfl, rfl, rfl⟩ rfl

/-- C3: when a private-key import fails at transfer stage `k` (stage 1:
`n`,`e`,`d` via `RSA_set0_key`; stage 2: `p`,`q`; stage 3:
`dmp1`,`dmq1`,`iqmp`), the adapter releases exactly once every
not-yet-committed component of stages `≥ k`, leaves the effects of
stages `< k` (components already inside the handle) untouched, returns
the single failure result `-1`, and does not destroy the key handle. -/
theorem import_failure_cleanup_stages (key : RSA)
    (nv ev dv pv qv dmp1v dmq1v iqmpv : Nat) (ok1 ok2 ok3 : Bool)
    (res : ImportResult)
    (hres : res = crypto_compat_RSA_import_ge110 ok1 ok2 ok3 key nv ev
        (some dv) (some pv) (some qv) (some dmp1v) (some dmq1v)
        (some iqmpv))
    (hfail : res.ret ≠ 0) :
    res.ret = -1 ∧ res.keyFreed = false ∧ res.adapterFreed.Nodup ∧
    res.freedPlain = (if ok1 then [] else [Comp.n, Comp.e]) ∧
    res.freedClear =
      (if ok1 = false then
        [Comp.d, Comp.p, Comp.q, Comp.dmp1, Comp.dmq1, Comp.iqmp]
      else if ok2 = false then
        [Comp.p, Comp.q, Comp.dmp1, Comp.dmq1, Comp.iqmp]
      else [Comp.dmp1, Comp.dmq1, Comp.iqmp]) ∧
    res.key =
      (if ok1 = false then key
      else if ok2 = false then
        { key with n := some nv, e := some ev, d := some dv }
      else
        { key with
          n := some nv, e := some ev, d := some dv, p := some pv,
          q := some qv }) := by
  subst hres
  cases ok1 <;> cases ok2 <;> cases ok3 <;>
    simp_all [crypto_compat_RSA_import_ge110, ImportResult.adapterFreed,
      freeSeq]

/-- Witness for C3: failure at stage 2 on a fresh handle. -/
theorem import_failure_cleanup_stages_witness :
    (crypto_compat_RSA_import_ge110 true false false RSA_new 3 65537
        (some 5) (some 7) (some 11) (some 13) (some 17) (some 19)).ret
      = -1 ∧
    (crypto_compat_RSA_import_ge110 true false false RSA_new 3 65537
        (some 5) (some 7) (some 11) (some 13) (some 17) (some 19)).keyFreed
      = false ∧
    (crypto_compat_RSA_import_ge110 true false false RSA_new 3 65537
        (some 5) (some 7) (some 11) (some 13) (some 17)
        (some 19)).adapterFreed.Nodup ∧
    (crypto_compat_RSA_import_ge110 true false false RSA_new 3 65537
        (some 5) (some 7) (some 11) (some 13) (some 17) (some 19)).freedPlain
      = (if true then [] else [Comp.n, Comp.e]) ∧
    (crypto_compat_RSA_import_ge110 true false false RSA_new 3 65537
        (some 5) (some 7) (some 11) (some 13) (some 17) (some 19)).freedClear
      =
      (if true = false then
        [Comp.d, Comp.p, Comp.q, Comp.dmp1, Comp.dmq1, Comp.iqmp]
      else if false = false then
        [Comp.p, Comp.q, Comp.dmp1, Comp.dmq1, Comp.iqmp]
      else [Comp.dmp1, Comp.dmq1, Comp.iqmp]) ∧
    (crypto_compat_RSA_import_ge110 true false false RSA_new 3 65537
        (some 5) (some 7) (some 11) (some 13) (some 17) (some 19)).key
      =
      (if true = false then RSA_new
      else if false = false then
        { RSA_new with n := some 3, e := some 65537, d := some 5 }
      else
        { RSA_new with
          n := some 3, e := some 65537, d := some 5, p := some 7,
          q := some 11 }) :=
  import_failure_cleanup_stages RSA_new 3 65537 5 7 11 13 17 19 true false
    false
    (crypto_compat_RSA_import_ge110 true false false RSA_new 3 65537
      (some 5) (some 7) (some 11) (some 13) (some 17) (some 19))
    rfl (by decide)

/-- C4 counterexample: at a stage-2 import failure the adapter does NOT
release the already-absorbed component `n` (it stays inside the handle),
and DOES release the not-yet-absorbed component `p` — the opposite of
the claim's assignment of release duties. -/
theorem import_absorbed_freed_cex :
    (crypto_compat_RSA_import_ge110 true false false RSA_new 3 65537
        (some 5) (some 7) (some 11) (some 13) (some 17) (some 19)).ret
      = -1 ∧
    (crypto_compat_RSA_import_ge110 true false false RSA_new 3 65537
        (some 5) (some 7) (some 11) (some 13) (some 17) (some 19)).key.n
      = some 3 ∧
    Comp.n ∉ (crypto_compat_RSA_import_ge110 true false false RSA_new 3
        65537 (some 5) (some 7) (some 11) (some 13) (some 17)
        (some 19)).adapterFreed ∧
    Comp.p ∈ (crypto_compat_RSA_import_ge110 true false false RSA_new 3
        65537 (some 5) (some 7) (some 11) (some 13) (some 17)
        (some 19)).freedClear := by
  decide

/-- C4 (amended): on a private-key import failure on a fresh handle, the
adapter releases exactly once every component it had NOT yet absorbed,
while every component already absorbed stays inside the key handle (to
be released with the handle); no component is released twice, none is
leaked, and the key handle itself is not destroyed. -/
theorem import_failure_frees_unabsorbed
    (nv ev dv pv qv dmp1v dmq1v iqmpv : Nat) (ok1 ok2 ok3 : Bool)
    (res : ImportResult)
    (hres : res = crypto_compat_RSA_import_ge110 ok1 ok2 ok3 RSA_new nv ev
        (some dv) (some pv) (some qv) (some dmp1v) (some dmq1v)
        (some iqmpv))
    (hfail : res.ret ≠ 0) :
    res.keyFreed = false ∧ res.adapterFreed.Nodup ∧
    importCleanupExact res = true := by
  subst hres
  cases ok1 <;> cases ok2 <;> cases ok3
  all_goals first
    | exact absurd rfl hfail
    | exact ⟨rfl,
        (by decide :
          List.Nodup [Comp.n, Comp.e, Comp.d, Comp.p, Comp.q, Comp.dmp1,
            Comp.dmq1, Comp.iqmp]), rfl⟩
    | exact ⟨rfl,
        (by decide :
          List.Nodup [Comp.p, Comp.q, Comp.dmp1, Comp.dmq1, Comp.iqmp]),
        rfl⟩
    | exact ⟨rfl,
        (by decide : List.Nodup [Comp.dmp1, Comp.dmq1, Comp.iqmp]), rfl⟩

/-- Witness for C4's amended theorem: stage-1 failure on a fresh handle. -/
theorem import_failure_frees_unabsorbed_witness :
    (crypto_compat_RSA_import_ge110 false false false RSA_new 3 65537
        (some 5) (some 7) (some 11) (some 13) (some 17) (some 19)).keyFreed
      = false ∧
    (crypto_compat_RSA_import_ge110 false false false RSA_new 3 65537
        (some 5) (some 7) (some 11) (some 13) (some 17)
        (some 19)).adapterFreed.Nodup ∧
    importCleanupExact
      (crypto_compat_RSA_import_ge110 false false false RSA_new 3 65537
        (some 5) (some 7) (some 11) (some 13) (some 17) (some 19)) = true :=
  import_failure_frees_unabsorbed 3 65537 5 7 11 13 17 19 false false false
    (crypto_compat_RSA_import_ge110 false false false RSA_new 3 65537
      (some 5) (some 7) (some 11) (some 13) (some 17) (some 19))
    rfl (by decide)

/-- C10: on every import failure path, the components released with the
plain variant (`BN_free`) are only the public components `n` and `e`,
and the components released with the clearing variant (`BN_clear_free`)
are never `n` or `e` — so the secret-bearing components `d`, `p`, `q`,
`dmp1`, `dmq1`, `iqmp` are only ever released with clearing. -/
theorem import_failure_clear_discipline (key : RSA) (nv ev : Nat)
    (d p q dmp1 dmq1 iqmp : Option Nat) (ok1 ok2 ok3 : Bool)
    (res : ImportResult)
    (hres : res = crypto_compat_RSA_import_ge110 ok1 ok2 ok3 key nv ev d p q
        dmp1 dmq1 iqmp)
    (hfail : res.ret ≠ 0) :
    res.freedPlain.all (fun c => c == Comp.n || c == Comp.e) = true ∧
    res.freedClear.all (fun c => !(c == Comp.n) && !(c == Comp.e))
      = true := by
  subst hres
  cases d <;> cases p <;> cases q <;> cases dmp1 <;> cases dmq1 <;>
    cases iqmp <;> cases ok1 <;> cases ok2 <;> cases ok3 <;>
    first
      | exact absurd rfl hfail
      | exact ⟨rfl, rfl⟩

/-- Witness for C10: stage-1 failure of a private-key import. -/
theorem import_failure_clear_discipline_witness :
    (crypto_compat_RSA_import_ge110 false false false RSA_new 3 65537
        (some 5) (some 7) (some 11) (some 13) (some 17)
        (some 19)).freedPlain.all
        (fun c => c == Comp.n || c == Comp.e) = true ∧
    (crypto_compat_RSA_import_ge110 false false false RSA_new 3 65537
        (some 5) (some 7) (some 11) (some 13) (some 17)
        (some 19)).freedClear.all
        (fun c => !(c == Comp.n) && !(c == Comp.e)) = true :=
  import_failure_clear_discipline RSA_new 3 65537 (some 5) (some 7)
    (some 11) (some 13) (some 17) (some 19) false false false
    (crypto_compat_RSA_import_ge110 false false false RSA_new 3 65537
      (some 5) (some 7) (some 11) (some 13) (some 17) (some 19))
    rfl (by decide)

/-- C6: generate creates its key pair under exactly the fixed policy of
a 2048-bit modulus and public exponent 65537; on any failure (exponent
allocation, key-handle allocation, or the generation primitive) it
releases every partially-created resource — the working exponent value
whenever it was allocated, the key handle exactly when it was allocated
but generation failed — before returning the NULL failure result, and
reports the underlying library's diagnostic string on every failure. -/
theorem generate_cleanup_policy (okE okKey okGen : Bool) (r : Nat)
    (res : GenerateResult)
    (hres : res = crypto_compat_RSA_generate_key okE okKey okGen r) :
    res.key = (if okE && okKey && okGen then
        some (RSA_generate_key_ex_model 2048 65537 r RSA_new) else none) ∧
    res.warned = !(okE && okKey && okGen) ∧
    res.freedE = res.madeE ∧
    res.keyFreed = (res.madeKey && !okGen) ∧
    RSA_bits (RSA_generate_key_ex_model 2048 65537 r RSA_new) = 2048 ∧
    (RSA_generate_key_ex_model 2048 65537 r RSA_new).e = some 65537 := by
  subst hres
  have hb : Nat.size (2 ^ 2047 + r % 2 ^ 2047) = 2048 := by
    simpa using size_top_bit 2047 r
  cases okE <;> cases okKey <;> cases okGen <;>
    simp_all [crypto_compat_RSA_generate_key, RSA_generate_key_ex_model,
      RSA_bits, BN_num_bits, RSA_new]

/-- Witness for C6: generation-primitive failure with both resources
allocated. -/
theorem generate_cleanup_policy_witness :
    (crypto_compat_RSA_generate_key true true false 0).key =
      (if true && true && false then
        some (RSA_generate_key_ex_model 2048 65537 0 RSA_new) else none) ∧
    (crypto_compat_RSA_generate_key true true false 0).warned =
      !(true && true && false) ∧
    (crypto_compat_RSA_generate_key true true false 0).freedE =
      (crypto_compat_RSA_generate_key true true false 0).madeE ∧
    (crypto_compat_RSA_generate_key true true false 0).keyFreed =
      ((crypto_compat_RSA_generate_key true true false 0).madeKey
        && !false) ∧
    RSA_bits (RSA_generate_key_ex_model 2048 65537 0 RSA_new) = 2048 ∧
    (RSA_generate_key_ex_model 2048 65537 0 RSA_new).e = some 65537 :=
  generate_cleanup_policy true true false 0
    (crypto_compat_RSA_generate_key true true false 0) rfl

/-- C7: every key handle successfully produced by generate validates:
`crypto_compat_RSA_valid_size` returns true on it. -/
theorem generate_valid_size (okE okKey okGen : Bool) (r : Nat) (k : RSA)
    (h : (crypto_compat_RSA_generate_key okE okKey okGen r).key = some k) :
    crypto_compat_RSA_valid_size k = true := by
  have hb : Nat.size (2 ^ 2047 + r % 2 ^ 2047) = 2048 := by
    simpa using size_top_bit 2047 r
  cases okE <;> cases okKey <;> cases okGen <;>
    simp_all [crypto_compat_RSA_generate_key, RSA_generate_key_ex_model,
      crypto_compat_RSA_valid_size, crypto_compat_RSA_valid_size_ge110,
      RSA_size, RSA_bits, BN_num_bits, BN_num_bytes, RSA_new]
  subst h
  simp [hb]

/-- Witness for C7 at a concrete successful generation. -/
theorem generate_valid_size_witness :
    crypto_compat_RSA_valid_size
      (RSA_generate_key_ex_model 2048 65537 0 RSA_new) = true :=
  generate_valid_size true true true 0
    (RSA_generate_key_ex_model 2048 65537 0 RSA_new) rfl

end CryptoCompat
